import Mathlib

/-!
Verification of the eKartoteka Home Assistant integration
(custom_components/ekartoteka_sensor) against its specification.

The Python modules are shallowly embedded:
* JSON values / Python objects become `JVal`.
* Python exceptions become the error side of `Except PyErr`.
* Dictionaries become association lists with Python's insert/replace order.
* The coordinator's network calls are abstracted as an `ApiIface` record of
  fallible functions; the low-level API client is modelled over an explicit
  response stream and request trace.
-/

namespace Ekartoteka

/-- JSON-ish values, also standing in for the Python objects the integration
manipulates (dicts, lists, strings, ints, booleans, None). -/
inductive JVal where
  | null : JVal
  | bool (b : Bool) : JVal
  | num (n : Int) : JVal
  | str (s : String) : JVal
  | arr (xs : List JVal) : JVal
  | obj (fields : List (String × JVal)) : JVal

/-- Python exceptions that the embedded code can raise. -/
inductive PyErr where
  /-- AttributeError (e.g. calling .get on None or on a non-dict). -/
  | attrError : PyErr
  /-- KeyError from d[k] indexing. -/
  | keyError (k : String) : PyErr
  /-- TypeError (indexing / mutating a value of the wrong shape). -/
  | typeError : PyErr
  /-- Exception(f"GET {url} failed: {status} {text}") raised by the request
  helpers: carries the method, url, status code and response body. -/
  | httpError (method url : String) (status : Nat) (body : String) : PyErr
  /-- Exception raised when the credential POST in login() is non-200. -/
  | authFailed (user : String) (status : Nat) (body : String) : PyErr
  /-- Exception(message) raised with a plain message. -/
  | msg (m : String) : PyErr
  /-- Stand-in for non-termination of the mutual _get/login recursion. -/
  | fuelOut : PyErr
  deriving DecidableEq, Repr

mutual

/-- Structural equality on `JVal` (Python `==` on JSON data). -/
def jvalBeq : JVal → JVal → Bool
  | .null, .null => true
  | .bool a, .bool b => a == b
  | .num a, .num b => a == b
  | .str a, .str b => a == b
  | .arr xs, .arr ys => jvalListBeq xs ys
  | .obj xs, .obj ys => jvalFieldsBeq xs ys
  | _, _ => false

/-- Elementwise `jvalBeq` on lists. -/
def jvalListBeq : List JVal → List JVal → Bool
  | [], [] => true
  | x :: xs, y :: ys => jvalBeq x y && jvalListBeq xs ys
  | _, _ => false

/-- Elementwise `jvalBeq` on field lists. -/
def jvalFieldsBeq : List (String × JVal) → List (String × JVal) → Bool
  | [], [] => true
  | (k, v) :: xs, (k', v') :: ys => k == k' && jvalBeq v v' && jvalFieldsBeq xs ys
  | _, _ => false

end

instance : BEq JVal := ⟨jvalBeq⟩

/-- Python truthiness: None, False, 0, "", [], {} are falsy. -/
def truthy : JVal → Bool
  | .null => false
  | .bool b => b
  | .num n => n != 0
  | .str s => !s.isEmpty
  | .arr xs => !xs.isEmpty
  | .obj fs => !fs.isEmpty

/-- Python `x is None`. -/
def JVal.isNull : JVal → Bool
  | .null => true
  | _ => false

/-- First-match lookup in a field list (Python dict keys are unique, and our
set operation below keeps them unique). -/
def fieldsLookup : List (String × JVal) → String → Option JVal
  | [], _ => none
  | (k, v) :: rest, key => if k = key then some v else fieldsLookup rest key

/-- Python `d.get(key)` / `d.get(key, None)`: default None on a dict, and an
AttributeError when the receiver is not a dict (e.g. None.get(...)). -/
def pyGet (v : JVal) (key : String) : Except PyErr JVal :=
  match v with
  | .obj fs => .ok ((fieldsLookup fs key).getD .null)
  | _ => .error .attrError

/-- Python `d.get(key, default)` with an explicit default. -/
def pyGetD (v : JVal) (key : String) (dflt : JVal) : Except PyErr JVal :=
  match v with
  | .obj fs => .ok ((fieldsLookup fs key).getD dflt)
  | _ => .error .attrError

/-- Python `d[key]`: KeyError when absent, TypeError when not a dict. -/
def pyIndex (v : JVal) (key : String) : Except PyErr JVal :=
  match v with
  | .obj fs =>
      match fieldsLookup fs key with
      | some x => .ok x
      | none => .error (.keyError key)
  | _ => .error .typeError

/-- Replace-in-place-or-append on a field list: Python `d[key] = v` keeps the
position of an existing key and appends new keys at the end. -/
def fieldsSet : List (String × JVal) → String → JVal → List (String × JVal)
  | [], key, v => [(key, v)]
  | (k, w) :: rest, key, v =>
      if k = key then (key, v) :: rest else (k, w) :: fieldsSet rest key v

/-- Python `d[key] = v` on a JVal: TypeError when the receiver is not a dict. -/
def objSet (d : JVal) (key : String) (v : JVal) : Except PyErr JVal :=
  match d with
  | .obj fs => .ok (.obj (fieldsSet fs key v))
  | _ => .error .typeError

/-- Python `int(x)` on the values that can appear as identifiers. -/
def pyInt (v : JVal) : Except PyErr Int :=
  match v with
  | .num n => .ok n
  | .bool b => .ok (cond b 1 0)
  | .str s =>
      match s.toInt? with
      | some n => .ok n
      | none => .error (.msg "invalid literal for int()")
  | _ => .error .typeError

/-- Python `repr(x)` on arbitrarily nested values (bracketed container
forms); compiled by well-founded recursion, so it is kept separate from the
scalar cases below that must reduce definitionally. -/
def pyReprDeep : JVal → String
  | .null => "None"
  | .bool b => cond b "True" "False"
  | .num n => toString n
  | .str s => "'" ++ s ++ "'"
  | .arr xs => "[" ++ String.intercalate ", " (xs.attach.map fun x => pyReprDeep x.1) ++ "]"
  | .obj fs =>
      "\x7b" ++
        String.intercalate ", "
          (fs.attach.map fun kv => "'" ++ kv.1.1 ++ "': " ++ pyReprDeep kv.1.2) ++
      "\x7d"
decreasing_by
  · have := List.sizeOf_lt_of_mem x.2
    simp_wf
    omega
  · obtain ⟨⟨a, b⟩, hm⟩ := kv
    have h := List.sizeOf_lt_of_mem hm
    simp_wf
    simp only [Prod.mk.sizeOf_spec] at h
    omega

/-- Python `repr(x)`: scalar cases inline, containers via `pyReprDeep`. -/
def pyRepr : JVal → String
  | .null => "None"
  | .bool b => cond b "True" "False"
  | .num n => toString n
  | .str s => "'" ++ s ++ "'"
  | .arr xs => pyReprDeep (.arr xs)
  | .obj fs => pyReprDeep (.obj fs)

/-- Python `str(x)` as used when formatting identifiers into URLs. -/
def pyStr : JVal → String
  | .str s => s
  | v => pyRepr v

/-- Association-list map with Python dict write semantics: replace in place
when the key exists, append otherwise. -/
def alistSet [BEq κ] : List (κ × α) → κ → α → List (κ × α)
  | [], key, v => [(key, v)]
  | (k, w) :: rest, key, v =>
      if k == key then (key, v) :: rest else (k, w) :: alistSet rest key v

/-- Association-list lookup (first match). -/
def alistGet [BEq κ] : List (κ × α) → κ → Option α
  | [], _ => none
  | (k, v) :: rest, key => if k == key then some v else alistGet rest key

/-! ## Coordinator (coordinator.py, `EkartotekaCoordinator._async_update_data`)

The coordinator calls the API client through `hass.async_add_executor_job`
and only observes each call's returned list or raised exception, so the
client is abstracted as a record of fallible functions.  Identifier
arguments are passed exactly as the call sites pass them: the house id is
already an `Int` (converted in `__init__`), apartment and sensor ids are the
raw JSON values taken from the fetched lists. -/

/-- The API client as seen by the coordinator: each public data fetch returns
the `results` list or raises. -/
structure ApiIface where
  apartmentList : Int → Except PyErr (List JVal)
  houseSensorList : Int → Except PyErr (List JVal)
  houseSensorValue : JVal → JVal → Except PyErr (List JVal)
  houseInvoicesList : Int → JVal → Except PyErr (List JVal)
  invoiceDetails : JVal → JVal → Except PyErr (List JVal)
  houseAnalysisSummary : Int → Except PyErr (List JVal)
  houseSensorCost : Int → JVal → Except PyErr (List JVal)

/-- One meter reading as stored in the `meters` map:
`{"value": ..., "type": ..., "read_date": ...}`. -/
structure MeterEntry where
  value : JVal
  type : JVal
  readDate : JVal

/-- The snapshot returned by `_async_update_data`. -/
structure Snapshot where
  metersInvoiceSummary : List (JVal × JVal)
  meters : List ((Int × Int) × MeterEntry)
  metaHouseId : Int
  metaHouseName : String
  lastInvoice : List (JVal × JVal)

/-- The coordinator-level failure raised to the scheduler:
`raise UpdateFailed(...) from err`. -/
inductive CoordErr where
  | updateFailed (cause : PyErr) : CoordErr
  deriving DecidableEq

/-- Inner sensor loop (coordinator.py lines 85-102): for each sensor entry,
read `id_el_op` (skip when None), fetch the reading list, take the first
element's `stan`/`typ`/`data` or None when the list is empty, and store under
`(int(apt_id), int(sensor_id))`. -/
def sensorLoop (api : ApiIface) (aptId : JVal) :
    List JVal → List ((Int × Int) × MeterEntry) →
    Except PyErr (List ((Int × Int) × MeterEntry))
  | [], meters => .ok meters
  | s :: rest, meters => do
    let sensorId ← pyGet s "id_el_op"
    if sensorId.isNull then
      sensorLoop api aptId rest meters
    else do
      let values ← api.houseSensorValue aptId sensorId
      let value ← match values with
        | [] => pure JVal.null
        | v0 :: _ => pyGet v0 "stan"
      let type ← match values with
        | [] => pure JVal.null
        | v0 :: _ => pyGet v0 "typ"
      let readDate ← match values with
        | [] => pure JVal.null
        | v0 :: _ => pyGet v0 "data"
      let ai ← pyInt aptId
      let si ← pyInt sensorId
      sensorLoop api aptId rest (alistSet meters (ai, si) ⟨value, type, readDate⟩)

/-- Annotation of one invoice line-item entry (coordinator.py lines 115-118):
`entry["start_date"/"end_date"/"paid"/"apartment_id"] = ...`. -/
def annotateEntry (inv0 aptId entry : JVal) : Except PyErr JVal := do
  let sd ← pyGet inv0 "DataOd"
  let entry ← objSet entry "start_date" sd
  let ed ← pyGet inv0 "DataDo"
  let entry ← objSet entry "end_date" ed
  let st ← pyGet inv0 "Stan"
  let entry ← objSet entry "paid" st
  objSet entry "apartment_id" aptId

/-- Loop over the fetched invoice line entries (coordinator.py lines
114-119): annotate each entry, then `last_invoice[entry.get("Nazwa")] = entry`. -/
def entriesLoop (inv0 aptId : JVal) :
    List JVal → List (JVal × JVal) → Except PyErr (List (JVal × JVal))
  | [], lastInvoice => .ok lastInvoice
  | e :: rest, lastInvoice => do
    let e ← annotateEntry inv0 aptId e
    let k ← pyGet e "Nazwa"
    entriesLoop inv0 aptId rest (alistSet lastInvoice k e)

/-- Outer apartment loop (coordinator.py lines 78-119): read `IdLok` (skip
when None), run the sensor loop, then handle the apartment's most recent
invoice period when `invoices and invoices[0].get("IdNal", None)` holds. -/
def apartmentLoop (api : ApiIface) (houseId : Int) (sensors : List JVal) :
    List JVal → List ((Int × Int) × MeterEntry) → List (JVal × JVal) →
    Except PyErr (List ((Int × Int) × MeterEntry) × List (JVal × JVal))
  | [], meters, lastInvoice => .ok (meters, lastInvoice)
  | apt :: rest, meters, lastInvoice => do
    let aptId ← pyGet apt "IdLok"
    if aptId.isNull then
      apartmentLoop api houseId sensors rest meters lastInvoice
    else do
      let meters ← sensorLoop api aptId sensors meters
      let invoices ← api.houseInvoicesList houseId aptId
      match invoices with
      | [] => apartmentLoop api houseId sensors rest meters lastInvoice
      | inv0 :: _ => do
        let idNal ← pyGet inv0 "IdNal"
        if truthy idNal then do
          let lastInvoiceId ← pyGet inv0 "IdNal"
          let entries ← api.invoiceDetails aptId lastInvoiceId
          let lastInvoice ← entriesLoop inv0 aptId entries lastInvoice
          apartmentLoop api houseId sensors rest meters lastInvoice
        else
          apartmentLoop api houseId sensors rest meters lastInvoice

/-- One row of the yearly-summary step (coordinator.py lines 128-138): index
`inv["id_el_op"]`, fetch the sensor's yearly cost, merge `cost`/`amount` from
the first cost row when the list is non-empty, and key by `inv["id_el_op"]`. -/
def summaryRow (api : ApiIface) (houseId : Int) (inv : JVal) :
    Except PyErr (JVal × JVal) := do
  let sid ← pyIndex inv "id_el_op"
  let cost ← api.houseSensorCost houseId sid
  let inv ← match cost with
    | [] => pure inv
    | c0 :: _ => do
      let cst ← pyIndex c0 "zuzycieFaktyczne"
      let inv ← objSet inv "cost" cst
      let amt ← pyIndex c0 "zuzycieFaktyczneJM"
      objSet inv "amount" amt
  let key ← pyIndex inv "id_el_op"
  pure (key, inv)

/-- Loop over the fetched summary rows.  An exception from any row is caught
by the inner `try`: the loop stops and the rows accumulated so far are kept
(the dict is created before the `try` and mutated in place). -/
def summaryLoop (api : ApiIface) (houseId : Int) :
    List JVal → List (JVal × JVal) → List (JVal × JVal)
  | [], acc => acc
  | inv :: rest, acc =>
    match summaryRow api houseId inv with
    | .error _ => acc
    | .ok (k, v) => summaryLoop api houseId rest (alistSet acc k v)

/-- Step 5 of the refresh cycle (coordinator.py lines 122-143), including the
inner `try`: a failing `houseAnalysisSummary` fetch degrades to an empty map. -/
def step5 (api : ApiIface) (houseId : Int) : List (JVal × JVal) :=
  match api.houseAnalysisSummary houseId with
  | .error _ => []
  | .ok invList => if invList.isEmpty then [] else summaryLoop api houseId invList []

/-- The body of `_async_update_data` inside the outer `try` (coordinator.py
lines 63-150). -/
def updateBody (api : ApiIface) (houseId : Int) (houseName : String) :
    Except PyErr Snapshot := do
  let apartmentList ← api.apartmentList houseId
  let sensors ← api.houseSensorList houseId
  let (meters, lastInvoice) ← apartmentLoop api houseId sensors apartmentList [] []
  let summary := step5 api houseId
  pure ⟨summary, meters, houseId, houseName, lastInvoice⟩

/-- `EkartotekaCoordinator._async_update_data`: the outer `try` converts any
escaping exception into `UpdateFailed`. -/
def asyncUpdateData (api : ApiIface) (houseId : Int) (houseName : String) :
    Except CoordErr Snapshot :=
  match updateBody api houseId houseName with
  | .ok snap => .ok snap
  | .error e => .error (.updateFailed e)

/-- What consumers see after a refresh cycle: the host's
`DataUpdateCoordinator` keeps the previous data when `_async_update_data`
raises `UpdateFailed`, and replaces it wholesale when it returns. -/
def publish (prev : Option Snapshot) (r : Except CoordErr Snapshot) :
    Option Snapshot :=
  match r with
  | .ok snap => some snap
  | .error _ => prev

/-! ## Entity projections (meter_sensor.py, invoice_entry_sensor.py,
utility_summary_sensor.py, base_sensor.py)

Each `native_value` property reads the coordinator's current data
(`none` when no refresh has succeeded yet).  The Python code calls
`.get(...)` on the result of a defaulted-to-`None` lookup, so a missing key
surfaces as an AttributeError: the embeddings return `Except PyErr JVal`. -/

/-- `EkartotekaMeterSensor.native_value` (meter_sensor.py lines 55-58):
`meters.get((apartment_id, sensor_id)).get("value", None)` with no default on
the outer lookup. -/
def meterNativeValue (data : Option Snapshot) (apartmentId sensorId : Int) :
    Except PyErr JVal :=
  let meters := match data with
    | some d => d.meters
    | none => []
  match alistGet meters (apartmentId, sensorId) with
  | some entry => .ok entry.value
  | none => .error .attrError

/-- `EkartotekaRentInvoiceEntry.native_value` (invoice_entry_sensor.py lines
46-49): when data is absent `value` is the empty dict, otherwise it is
`last_invoice.get(meter_id, None)`; then `value.get("Nalicz", None)`. -/
def invoiceNativeValue (data : Option Snapshot) (meterId : JVal) :
    Except PyErr JVal :=
  match data with
  | none => pyGet (.obj []) "Nalicz"
  | some d =>
    match alistGet d.lastInvoice meterId with
    | some entry => pyGet entry "Nalicz"
    | none => .error .attrError

/-- `EkartotekaInvoiceSummarySensor.native_value` (utility_summary_sensor.py
lines 54-57): same shape over `meters_invoice_summary` and
`"WynikRozliczenia"`. -/
def summaryNativeValue (data : Option Snapshot) (meterId : JVal) :
    Except PyErr JVal :=
  match data with
  | none => pyGet (.obj []) "WynikRozliczenia"
  | some d =>
    match alistGet d.metersInvoiceSummary meterId with
    | some entry => pyGet entry "WynikRozliczenia"
    | none => .error .attrError

/-- Device classes assigned by `_apply_unit_mapping`. -/
inductive SensorDeviceClass where
  | water
  | energy
  | monetary
  deriving DecidableEq, Repr

/-- `UnitOfVolume.CUBIC_METERS` in Home Assistant. -/
def CUBIC_METERS : String := "m³"

/-- `UnitOfEnergy.GIGA_JOULE` in Home Assistant. -/
def GIGA_JOULE : String := "GJ"

/-- Python `s.strip()`: drop leading and trailing whitespace characters. -/
def pyStrip (s : String) : String :=
  ⟨((s.data.dropWhile Char.isWhitespace).reverse.dropWhile Char.isWhitespace).reverse⟩

/-- `EkartotekaBaseEntity._apply_unit_mapping` (base_sensor.py lines 23-32):
strips the incoming unit string, maps "m3" and "GJ" to device-class/unit
pairs, passes any other non-empty stripped code through as the unit, and
leaves the previous device class untouched in that branch.  Returns the
resulting `(_attr_device_class, _attr_native_unit_of_measurement)`. -/
def applyUnitMapping (deviceClass0 : Option SensorDeviceClass)
    (unit : Option String) : Option SensorDeviceClass × Option String :=
  let u := pyStrip (unit.getD "")
  if u = "m3" then
    (some .water, some CUBIC_METERS)
  else if u = "GJ" then
    (some .energy, some GIGA_JOULE)
  else
    (deviceClass0, if u = "" then none else some u)

/-! ## API client (ekartoteka_api.py, `eKartotekaAPI`)

The client is modelled over an explicit environment: `rsp` gives the
response to the k-th network call, `nowMs` gives the value of the k-th
`_ts_ms()` call (`int(datetime.utcnow().timestamp() * 1000)`), and `year`
is `datetime.now().year`.  Every issued request is recorded in a trace, and
the object's mutable fields are threaded as an explicit `ApiState` that is
returned even when an exception propagates (Python keeps mutations made
before a raise).  Since `self._get` calls `self.login()` on a 401 and
`login()` calls `self._get` for its inner lookups, the mutual recursion is
bounded by a fuel parameter; running out of fuel stands for divergence and
is not reachable in any theorem below. -/

/-- One HTTP response: status code, body text, and parsed JSON. -/
structure Resp where
  status : Nat
  body : String
  json : JVal

/-- One issued request, with the variable part of its headers (the
`Authorization` header produced by `_bearer`; the other headers from
`_json_headers` are constants). -/
structure Request where
  method : String
  url : String
  auth : Option String
  deriving DecidableEq, Repr

/-- The client object's mutable fields (ekartoteka_api.py lines 42-53). -/
structure ApiState where
  username : String
  password : String
  auth_token : JVal
  token : JVal
  id_usr : JVal
  id_kli : JVal
  name : JVal
  id_gru : JVal

/-- `eKartotekaAPI.__init__`: both tokens are empty strings, the ids None. -/
def initState (username password : String) : ApiState :=
  ⟨username, password, .str "", .str "", .null, .null, .null, .null⟩

/-- Network-side bookkeeping: next response index, next clock-read index,
and the trace of issued requests. -/
structure Net where
  k : Nat
  clk : Nat
  trace : List Request
  deriving Repr

/-- Record a request: the response to it is `rsp w.k`. -/
def pushReq (w : Net) (req : Request) : Net :=
  ⟨w.k + 1, w.clk, w.trace ++ [req]⟩

/-- Consume one `_ts_ms()` clock read. -/
def tick (w : Net) : Net :=
  ⟨w.k, w.clk + 1, w.trace⟩

/-- `eKartotekaAPI._bearer`: an Authorization header when the token is
truthy, nothing otherwise. -/
def bearerAuth (tok : JVal) : Option String :=
  if truthy tok then some ("Bearer " ++ pyStr tok) else none

/-- `eKartotekaAPI._reset_tokens`. -/
def resetTokens (s : ApiState) : ApiState :=
  { s with auth_token := .str "", token := .str "" }

/-- Endpoint `login_url`. -/
def loginUrl : String := "https://www.e-kartoteka.pl/api/api-token-auth/"

/-- Endpoint `accounts_list`. -/
def accountsListUrl : String :=
  "https://www.e-kartoteka.pl/api/konta/kontapowiazane/?pageSize=50"

/-- Template `account_details` applied to its argument. -/
def accountDetailsUrl (accountId : String) : String :=
  "https://www.e-kartoteka.pl/api/konta/kontapowiazane/" ++ accountId ++ "/"

/-- Template `groups` applied to its argument. -/
def groupsUrl (idKli : String) : String :=
  "https://www.e-kartoteka.pl/api/uzytkownicy/grupy/?id_kli=" ++ idKli ++
    "&page=1&pageSize=100"

/-- Template `houses` applied to its arguments; note it has no `_` slot. -/
def housesUrl (idGru idKli : String) : String :=
  "https://www.e-kartoteka.pl/api/uzytkownicy/nieruchomosci/?id_gru=" ++ idGru ++
    "&id_kli=" ++ idKli ++ "&page=1&pageSize=20"

/-- Template `apartments` applied to its arguments. -/
def apartmentsUrl (houseId idKli ts : String) : String :=
  "https://www.e-kartoteka.pl/api/oplatymiesieczne/lokale/?page=1&pageSize=1000&id_a_do=" ++
    houseId ++ "&id_kli=" ++ idKli ++ "&_=" ++ ts

/-- Template `analysis_summary` applied to its arguments. -/
def analysisSummaryUrl (houseId idKli rok ts : String) : String :=
  "https://www.e-kartoteka.pl/api/media/analizazuzycia/?page=1&pageSize=20&id_a_do=" ++
    houseId ++ "&id_kli=" ++ idKli ++ "&rok=" ++ rok ++ "&_=" ++ ts

/-- Template `sensors_list` applied to its arguments. -/
def sensorsListUrl (houseId idGru ts : String) : String :=
  "https://www.e-kartoteka.pl/api/liczniki/rodzajemediow/?page=1&pageSize=20&id_a_do=" ++
    houseId ++ "&id_gru=" ++ idGru ++ "&_=" ++ ts

/-- Template `sensor_value` applied to its arguments. -/
def sensorValueUrl (idLok idElOp ts : String) : String :=
  "https://www.e-kartoteka.pl/api/liczniki/liczniki/?page=1&pageSize=20&id_lok=" ++
    idLok ++ "&id_el_op=" ++ idElOp ++ "&_=" ++ ts

/-- Template `invoices_list` applied to its arguments. -/
def invoicesListUrl (houseId idKli idLok ts : String) : String :=
  "https://www.e-kartoteka.pl/api/oplatymiesieczne/okresy/?page=1&pageSize=20&id_a_do=" ++
    houseId ++ "&id_kli=" ++ idKli ++ "&id_lok=" ++ idLok ++ "&_=" ++ ts

/-- Template `monthly_rental` applied to its arguments. -/
def monthlyRentalUrl (idNal idLok idKli ts : String) : String :=
  "https://www.e-kartoteka.pl/api/oplatymiesieczne/oplatymiesieczneb/?page=1&pageSize=100&id_nal=" ++
    idNal ++ "&id_lok=" ++ idLok ++ "&id_kli=" ++ idKli ++ "&_=" ++ ts

/-- Template `monthly_meters_cost` applied to its arguments. -/
def monthlyMetersCostUrl (houseId idKli idElOp ts : String) : String :=
  "https://www.e-kartoteka.pl/api/media/rozliczeniemediow/?page=1&pageSize=20&id_a_do=" ++
    houseId ++ "&id_kli=" ++ idKli ++ "&id_el_op=" ++ idElOp ++ "&ordering=DataOd&_=" ++ ts

/-- The mutually recursive `_get`/`login` pair (ekartoteka_api.py lines
73-90 and 165-208), compiled as a single structural recursion on the fuel so
that it evaluates by reduction: the first component is `_get`, the second
`login`.  Use the projections `getF` and `loginF` below.

`_get`: GET with automatic reset-tokens + relogin + single retry on a 401, a
descriptive error on any other non-200 status, and the parsed JSON on 200.

`login`: no-op when both tokens are truthy; otherwise POST credentials for
the auth token, fetch the linked-accounts list, the first account's details
(account-scoped token and client ids), and the client's groups (group id),
raising on any missing piece.  The inner lookups go through `_get`, hence
the mutual recursion. -/
def clientStep : Nat →
    ((Nat → Resp) → ApiState → Net → String → Bool →
      Except PyErr JVal × ApiState × Net) ×
    ((Nat → Resp) → ApiState → Net → Except PyErr Bool × ApiState × Net)
  | 0 =>
    (fun _ s w _ _ => (.error .fuelOut, s, w),
     fun _ s w => (.error .fuelOut, s, w))
  | fuel + 1 =>
    (fun rsp s w url useAccountToken =>
      let tok := if useAccountToken then s.token else s.auth_token
      let resp := rsp w.k
      let w := pushReq w ⟨"GET", url, bearerAuth tok⟩
      if resp.status = 401 then
        match (clientStep fuel).2 rsp (resetTokens s) w with
        | (.error e, s, w) => (.error e, s, w)
        | (.ok _, s, w) =>
          let tok := if useAccountToken then s.token else s.auth_token
          let resp2 := rsp w.k
          let w := pushReq w ⟨"GET", url, bearerAuth tok⟩
          if resp2.status ≠ 200 then
            (.error (.httpError "GET" url resp2.status resp2.body), s, w)
          else
            (.ok resp2.json, s, w)
      else if resp.status ≠ 200 then
        (.error (.httpError "GET" url resp.status resp.body), s, w)
      else
        (.ok resp.json, s, w),
     fun rsp s w =>
      if truthy s.token && truthy s.auth_token then (.ok true, s, w)
      else
        let resp := rsp w.k
        let w := pushReq w ⟨"POST", loginUrl, none⟩
        if resp.status ≠ 200 then
          (.error (.authFailed s.username resp.status resp.body), s, w)
        else
          match pyGetD resp.json "token" (.str "") with
          | .error e => (.error e, s, w)
          | .ok atok =>
            let s := { s with auth_token := atok }
            if !truthy atok then
              (.error (.msg "Login response did not include auth token"), s, w)
            else
              match (clientStep fuel).1 rsp s w accountsListUrl false with
              | (.error e, s, w) => (.error e, s, w)
              | (.ok accList, s, w) =>
                let results := match accList with
                  | .obj fs => (fieldsLookup fs "results").getD (.arr [])
                  | _ => .arr []
                if !truthy results then
                  (.error (.msg "No linked accounts returned for user"), s, w)
                else
                  match results with
                  | .arr (first :: _) =>
                    (match pyGet first "id" with
                    | .error e => (.error e, s, w)
                    | .ok accountId =>
                      if accountId.isNull then
                        (.error (.msg "Linked account payload missing 'id'"), s, w)
                      else
                        match (clientStep fuel).1 rsp s w
                            (accountDetailsUrl (pyStr accountId)) false with
                        | (.error e, s, w) => (.error e, s, w)
                        | (.ok details, s, w) =>
                          match details with
                          | .obj dfs =>
                            let s := { s with
                              id_usr := (fieldsLookup dfs "id_usr").getD .null,
                              id_kli := (fieldsLookup dfs "id_kli").getD .null,
                              name := (fieldsLookup dfs "nazwa").getD .null,
                              token := (fieldsLookup dfs "token").getD (.str "") }
                            if !truthy s.token then
                              (.error (.msg "Account details did not include account token"), s, w)
                            else
                              match (clientStep fuel).1 rsp s w
                                  (groupsUrl (pyStr s.id_kli)) true with
                              | (.error e, s, w) => (.error e, s, w)
                              | (.ok grps, s, w) =>
                                let grpList := match grps with
                                  | .obj gfs => (fieldsLookup gfs "results").getD (.arr [])
                                  | _ => .arr []
                                if !truthy grpList then
                                  (.error (.msg "Groups list empty for user"), s, w)
                                else
                                  match grpList with
                                  | .arr (g0 :: _) =>
                                    (match pyGet g0 "IdGru" with
                                    | .error e => (.error e, s, w)
                                    | .ok idGru =>
                                      if idGru.isNull then
                                        (.error (.msg "Groups payload missing 'IdGru'"), s, w)
                                      else
                                        (.ok true, { s with id_gru := idGru }, w))
                                  -- indexing a truthy non-list: the subsequent
                                  -- attribute access fails either way
                                  | _ => (.error .typeError, s, w)
                          | _ => (.error .attrError, s, w)
                    )
                  -- indexing a truthy non-list value of "results"
                  | _ => (.error .typeError, s, w))

/-- `eKartotekaAPI._get` (ekartoteka_api.py lines 73-90). -/
def getF (fuel : Nat) (rsp : Nat → Resp) (s : ApiState) (w : Net)
    (url : String) (useAccountToken : Bool) :
    Except PyErr JVal × ApiState × Net :=
  (clientStep fuel).1 rsp s w url useAccountToken

/-- `eKartotekaAPI.login` (ekartoteka_api.py lines 165-208). -/
def loginF (fuel : Nat) (rsp : Nat → Resp) (s : ApiState) (w : Net) :
    Except PyErr Bool × ApiState × Net :=
  (clientStep fuel).2 rsp s w

/-- Folding the first projection back to `getF`. -/
theorem clientStep_fst (n : Nat) : (clientStep n).1 = getF n := rfl

/-- Folding the second projection back to `loginF`. -/
theorem clientStep_snd (n : Nat) : (clientStep n).2 = loginF n := rfl

/-- The external world of the client: responses by call index, the
millisecond clock by read index, and the current calendar year. -/
structure Env where
  rsp : Nat → Resp
  nowMs : Nat → Nat
  year : Int

/-- `data.get("results", [])` as every public wrapper applies it to the JSON
returned by `_get`. -/
def resultsOr (data : JVal) : Except PyErr JVal :=
  match data with
  | .obj fs => .ok ((fieldsLookup fs "results").getD (.arr []))
  | _ => .error .attrError

/-- `eKartotekaAPI.houseList` (lines 111-116): login, then one GET on the
`houses` template (which carries no timestamp slot) with the account token. -/
def houseListF (fuel : Nat) (env : Env) (s : ApiState) (w : Net) :
    Except PyErr JVal × ApiState × Net :=
  match loginF fuel env.rsp s w with
  | (.error e, s, w) => (.error e, s, w)
  | (.ok _, s, w) =>
    match getF fuel env.rsp s w (housesUrl (pyStr s.id_gru) (pyStr s.id_kli)) true with
    | (.error e, s, w) => (.error e, s, w)
    | (.ok data, s, w) =>
      match resultsOr data with
      | .error e => (.error e, s, w)
      | .ok res => (.ok res, s, w)

/-- `eKartotekaAPI.apartmentList` (lines 118-122). -/
def apartmentListF (fuel : Nat) (env : Env) (s : ApiState) (w : Net)
    (houseId : JVal) : Except PyErr JVal × ApiState × Net :=
  match loginF fuel env.rsp s w with
  | (.error e, s, w) => (.error e, s, w)
  | (.ok _, s, w) =>
    let ts := env.nowMs w.clk
    let w := tick w
    match getF fuel env.rsp s w
        (apartmentsUrl (pyStr houseId) (pyStr s.id_kli) (toString ts)) true with
    | (.error e, s, w) => (.error e, s, w)
    | (.ok data, s, w) =>
      match resultsOr data with
      | .error e => (.error e, s, w)
      | .ok res => (.ok res, s, w)

/-- `eKartotekaAPI.houseAnalysisSummary` (lines 125-129). -/
def houseAnalysisSummaryF (fuel : Nat) (env : Env) (s : ApiState) (w : Net)
    (houseId : JVal) : Except PyErr JVal × ApiState × Net :=
  match loginF fuel env.rsp s w with
  | (.error e, s, w) => (.error e, s, w)
  | (.ok _, s, w) =>
    let ts := env.nowMs w.clk
    let w := tick w
    match getF fuel env.rsp s w
        (analysisSummaryUrl (pyStr houseId) (pyStr s.id_kli) (toString env.year)
          (toString ts)) true with
    | (.error e, s, w) => (.error e, s, w)
    | (.ok data, s, w) =>
      match resultsOr data with
      | .error e => (.error e, s, w)
      | .ok res => (.ok res, s, w)

/-- `eKartotekaAPI.houseInvoicesList` (lines 132-136). -/
def houseInvoicesListF (fuel : Nat) (env : Env) (s : ApiState) (w : Net)
    (houseId apartmentId : JVal) : Except PyErr JVal × ApiState × Net :=
  match loginF fuel env.rsp s w with
  | (.error e, s, w) => (.error e, s, w)
  | (.ok _, s, w) =>
    let ts := env.nowMs w.clk
    let w := tick w
    match getF fuel env.rsp s w
        (invoicesListUrl (pyStr houseId) (pyStr s.id_kli) (pyStr apartmentId)
          (toString ts)) true with
    | (.error e, s, w) => (.error e, s, w)
    | (.ok data, s, w) =>
      match resultsOr data with
      | .error e => (.error e, s, w)
      | .ok res => (.ok res, s, w)

/-- `eKartotekaAPI.invoiceDetails` (lines 138-142). -/
def invoiceDetailsF (fuel : Nat) (env : Env) (s : ApiState) (w : Net)
    (apartmentId invoiceId : JVal) : Except PyErr JVal × ApiState × Net :=
  match loginF fuel env.rsp s w with
  | (.error e, s, w) => (.error e, s, w)
  | (.ok _, s, w) =>
    let ts := env.nowMs w.clk
    let w := tick w
    match getF fuel env.rsp s w
        (monthlyRentalUrl (pyStr invoiceId) (pyStr apartmentId) (pyStr s.id_kli)
          (toString ts)) true with
    | (.error e, s, w) => (.error e, s, w)
    | (.ok data, s, w) =>
      match resultsOr data with
      | .error e => (.error e, s, w)
      | .ok res => (.ok res, s, w)

/-- `eKartotekaAPI.houseSensorList` (lines 144-149). -/
def houseSensorListF (fuel : Nat) (env : Env) (s : ApiState) (w : Net)
    (houseId : JVal) : Except PyErr JVal × ApiState × Net :=
  match loginF fuel env.rsp s w with
  | (.error e, s, w) => (.error e, s, w)
  | (.ok _, s, w) =>
    let ts := env.nowMs w.clk
    let w := tick w
    match getF fuel env.rsp s w
        (sensorsListUrl (pyStr houseId) (pyStr s.id_gru) (toString ts)) true with
    | (.error e, s, w) => (.error e, s, w)
    | (.ok data, s, w) =>
      match resultsOr data with
      | .error e => (.error e, s, w)
      | .ok res => (.ok res, s, w)

/-- `eKartotekaAPI.houseSensorValue` (lines 151-155). -/
def houseSensorValueF (fuel : Nat) (env : Env) (s : ApiState) (w : Net)
    (apartmentId sensorId : JVal) : Except PyErr JVal × ApiState × Net :=
  match loginF fuel env.rsp s w with
  | (.error e, s, w) => (.error e, s, w)
  | (.ok _, s, w) =>
    let ts := env.nowMs w.clk
    let w := tick w
    match getF fuel env.rsp s w
        (sensorValueUrl (pyStr apartmentId) (pyStr sensorId) (toString ts)) true with
    | (.error e, s, w) => (.error e, s, w)
    | (.ok data, s, w) =>
      match resultsOr data with
      | .error e => (.error e, s, w)
      | .ok res => (.ok res, s, w)

/-- `eKartotekaAPI.houseSensorCost` (lines 157-161). -/
def houseSensorCostF (fuel : Nat) (env : Env) (s : ApiState) (w : Net)
    (houseId sensorId : JVal) : Except PyErr JVal × ApiState × Net :=
  match loginF fuel env.rsp s w with
  | (.error e, s, w) => (.error e, s, w)
  | (.ok _, s, w) =>
    let ts := env.nowMs w.clk
    let w := tick w
    match getF fuel env.rsp s w
        (monthlyMetersCostUrl (pyStr houseId) (pyStr s.id_kli) (pyStr sensorId)
          (toString ts)) true with
    | (.error e, s, w) => (.error e, s, w)
    | (.ok data, s, w) =>
      match resultsOr data with
      | .error e => (.error e, s, w)
      | .ok res => (.ok res, s, w)

/-! ## Theorems -/

/-- Any successful return of `login` leaves both tokens truthy, and any
successful `_get` either leaves the client state untouched or (after a
401-triggered relogin) leaves both tokens truthy.  Proved by simultaneous
induction on the recursion fuel of the mutual `_get`/`login` pair. -/
theorem tokens_invariant (fuel : Nat) :
    (∀ (rsp : Nat → Resp) s w b s' w', loginF fuel rsp s w = (.ok b, s', w') →
      truthy s'.token = true ∧ truthy s'.auth_token = true) ∧
    (∀ (rsp : Nat → Resp) s w url acc j s' w', getF fuel rsp s w url acc = (.ok j, s', w') →
      s' = s ∨ (truthy s'.token = true ∧ truthy s'.auth_token = true)) := by
  induction fuel with
  | zero =>
    constructor
    · intro rsp s w b s' w' h
      simp [loginF, clientStep.eq_1] at h
    · intro rsp s w url acc j s' w' h
      simp [getF, clientStep.eq_1] at h
  | succ n ih =>
    constructor
    · intro rsp s w b s' w' h
      simp only [loginF, clientStep.eq_2] at h
      simp only [clientStep_fst, clientStep_snd] at h
      repeat' split at h
      all_goals simp at h
      -- early-return case: both tokens already truthy, state unchanged
      · rename_i hGuard
        obtain ⟨-, hs, -⟩ := h
        subst hs
        simpa [Bool.and_eq_true] using hGuard
      -- full-login case: follow the token fields through the four steps
      · rename_i hGuard hSt x5 atok heqTok hAtok x4 accList sA wA heqAcc hAccRes
          results g1 tl1 heqRes x3 accId heqId hIdNN x2 sB wB vv dfs heqDet hTokC
          x1 grpsJ sD wD heqGrp hGrpRes grpL g0 tl2 heqGrpRes x0 idGru heqIdGru hIdGruNN
        obtain ⟨-, hs, -⟩ := h
        subst hs
        have hmain : truthy sD.token = true ∧ truthy sD.auth_token = true := by
          rcases ih.2 _ _ _ _ _ _ _ _ heqGrp with hD | hD
          · subst hD
            constructor
            · simpa using hTokC
            · rcases ih.2 _ _ _ _ _ _ _ _ heqDet with hB | hB
              · subst hB
                rcases ih.2 _ _ _ _ _ _ _ _ heqAcc with hA | hA
                · subst hA
                  simpa using hAtok
                · exact hA.2
              · exact hB.2
          · exact hD
        exact hmain
    · intro rsp s w url acc j s' w' h
      simp only [getF, clientStep.eq_2] at h
      simp only [clientStep_fst, clientStep_snd] at h
      repeat' split at h
      all_goals simp at h
      -- 401 then successful relogin then 200 retry (account-token variant)
      · rename_i hSt xx bL s2 w2 heqLogin hOk hAcc
        obtain ⟨-, hs, -⟩ := h
        exact Or.inr (hs ▸ ih.1 _ _ _ _ _ _ heqLogin)
      -- 401 then successful relogin then 200 retry (auth-token variant)
      · rename_i hSt xx bL s2 w2 heqLogin hOk hAcc
        obtain ⟨-, hs, -⟩ := h
        exact Or.inr (hs ▸ ih.1 _ _ _ _ _ _ heqLogin)
      -- plain 200, account-token variant: state unchanged
      · obtain ⟨-, hs, -⟩ := h
        exact Or.inl hs.symm
      -- plain 200, auth-token variant: state unchanged
      · obtain ⟨-, hs, -⟩ := h
        exact Or.inl hs.symm

/-- C3: the request helper's retry contract.  (i) A first response with a
non-200, non-401 status fails immediately with an error carrying the status
and body, after exactly the one recorded request.  (ii) A first 401 clears
both tokens (`resetTokens`) and re-runs `login`; when that login succeeds
the same URL is retried exactly once with fresh headers (the bearer token of
the post-login state), a 200 retry succeeds and any non-200 retry
(including a second 401) fails with an error carrying the retry's status
and body.  (iii) When the relogin itself fails, its error propagates and no
retry happens. -/
theorem c3_get_retry_contract (fuel : Nat) (rsp : Nat → Resp) (s : ApiState)
    (w : Net) (url : String) (acc : Bool) :
    ((rsp w.k).status ≠ 200 → (rsp w.k).status ≠ 401 →
      getF (fuel + 1) rsp s w url acc =
        (.error (.httpError "GET" url (rsp w.k).status (rsp w.k).body), s,
         pushReq w ⟨"GET", url, bearerAuth (if acc then s.token else s.auth_token)⟩)) ∧
    ((rsp w.k).status = 401 →
      ∀ b s2 w2, loginF fuel rsp (resetTokens s)
          (pushReq w ⟨"GET", url, bearerAuth (if acc then s.token else s.auth_token)⟩) =
          (.ok b, s2, w2) →
        getF (fuel + 1) rsp s w url acc =
          (if (rsp w2.k).status ≠ 200 then
            (.error (.httpError "GET" url (rsp w2.k).status (rsp w2.k).body), s2,
             pushReq w2 ⟨"GET", url, bearerAuth (if acc then s2.token else s2.auth_token)⟩)
          else
            (.ok (rsp w2.k).json, s2,
             pushReq w2 ⟨"GET", url, bearerAuth (if acc then s2.token else s2.auth_token)⟩))) ∧
    ((rsp w.k).status = 401 →
      ∀ e s2 w2, loginF fuel rsp (resetTokens s)
          (pushReq w ⟨"GET", url, bearerAuth (if acc then s.token else s.auth_token)⟩) =
          (.error e, s2, w2) →
        getF (fuel + 1) rsp s w url acc = (.error e, s2, w2)) := by
  refine ⟨?_, ?_, ?_⟩
  · intro hn hN
    simp only [getF, clientStep.eq_2]
    simp only [clientStep_snd]
    simp [hn, hN]
  · intro h4 b s2 w2 hl
    simp only [getF, clientStep.eq_2]
    simp only [clientStep_snd]
    simp [h4, hl]
  · intro h4 e s2 w2 hl
    simp only [getF, clientStep.eq_2]
    simp only [clientStep_snd]
    simp [h4, hl]

/-- Response stream for the C3 witness: a 401, then the four responses of a
successful login sequence, then 200s. -/
def rspRetry : Nat → Resp
  | 0 => ⟨401, "expired", .null⟩
  | 1 => ⟨200, "", .obj [("token", .str "AT2")]⟩
  | 2 => ⟨200, "", .obj [("results", .arr [.obj [("id", .num 7)]])]⟩
  | 3 => ⟨200, "",
      .obj [("id_usr", .num 1), ("id_kli", .num 2), ("nazwa", .str "N"),
            ("token", .str "T2")]⟩
  | 4 => ⟨200, "", .obj [("results", .arr [.obj [("IdGru", .num 3)]])]⟩
  | _ => ⟨200, "okbody", .obj [("results", .arr [.str "R"])]⟩

/-- Response stream failing every call with a 500. -/
def rspFail : Nat → Resp := fun _ => ⟨500, "boom", .null⟩

/-- A client state that already holds both tokens. -/
def sTokens : ApiState := ⟨"u", "p", .str "AT", .str "T", .null, .num 2, .null, .num 3⟩

/-- C3 witness: the retry contract evaluated on concrete streams — a
401-recovered call (note the retry request carries the fresh "Bearer T2"
header) and a 500 call that fails with status and body and no retry. -/
theorem c3_get_retry_contract_witness :
    getF 7 rspRetry sTokens ⟨0, 0, []⟩ "https://api.example/data" true =
      (.ok (.obj [("results", .arr [.str "R"])]),
       ⟨"u", "p", .str "AT2", .str "T2", .num 1, .num 2, .str "N", .num 3⟩,
       ⟨6, 0, [⟨"GET", "https://api.example/data", some "Bearer T"⟩,
               ⟨"POST", loginUrl, none⟩,
               ⟨"GET", accountsListUrl, some "Bearer AT2"⟩,
               ⟨"GET", accountDetailsUrl "7", some "Bearer AT2"⟩,
               ⟨"GET", groupsUrl "2", some "Bearer T2"⟩,
               ⟨"GET", "https://api.example/data", some "Bearer T2"⟩]⟩) ∧
    getF 7 rspFail sTokens ⟨0, 0, []⟩ "https://api.example/data" true =
      (.error (.httpError "GET" "https://api.example/data" 500 "boom"), sTokens,
       ⟨1, 0, [⟨"GET", "https://api.example/data", some "Bearer T"⟩]⟩) := by
  constructor
  · have H := (c3_get_retry_contract 6 rspRetry sTokens ⟨0, 0, []⟩
        "https://api.example/data" true).2.1 rfl true
      ⟨"u", "p", .str "AT2", .str "T2", .num 1, .num 2, .str "N", .num 3⟩
      ⟨5, 0, [⟨"GET", "https://api.example/data", some "Bearer T"⟩,
              ⟨"POST", loginUrl, none⟩,
              ⟨"GET", accountsListUrl, some "Bearer AT2"⟩,
              ⟨"GET", accountDetailsUrl "7", some "Bearer AT2"⟩,
              ⟨"GET", groupsUrl "2", some "Bearer T2"⟩]⟩ (by rfl)
    exact H
  · exact (c3_get_retry_contract 6 rspFail sTokens ⟨0, 0, []⟩
      "https://api.example/data" true).1 (by decide) (by decide)

/-- Constant 200 response stream whose JSON carries an empty results list. -/
def rspOkEmpty : Nat → Resp := fun _ => ⟨200, "", .obj [("results", .arr [])]⟩

/-- Whether a character list contains the two-character sequence of an
underscore followed by an equals sign. -/
def hasTsAux : List Char → Bool
  | [] => false
  | '_' :: '=' :: _ => true
  | _ :: rest => hasTsAux rest

/-- Whether a URL contains a `_=` cache-busting query parameter. -/
def hasTsParam (u : String) : Bool := hasTsAux u.data

/-- C5 counterexample: the claim says every data-fetch GET carries a
millisecond-epoch cache-busting timestamp parameter, but `houseList` formats
the `houses` template, which has no timestamp slot: the call is identical
under two different clocks, its one GET goes to a URL with no `_=`
parameter (and reads no clock: the clock counter stays 0), while e.g. the
apartments URL does carry `_=`. -/
theorem c5_houselist_no_timestamp :
    (houseListF 3 ⟨rspOkEmpty, fun _ => 1111, 2024⟩ sTokens ⟨0, 0, []⟩ =
      houseListF 3 ⟨rspOkEmpty, fun _ => 9999, 2024⟩ sTokens ⟨0, 0, []⟩) ∧
    (houseListF 3 ⟨rspOkEmpty, fun _ => 1111, 2024⟩ sTokens ⟨0, 0, []⟩ =
      (.ok (.arr []), sTokens,
       ⟨1, 0, [⟨"GET", housesUrl "3" "2", some "Bearer T"⟩]⟩)) ∧
    hasTsParam (housesUrl "3" "2") = false ∧
    hasTsParam (apartmentsUrl "5" "2" "1111") = true :=
  ⟨rfl, rfl, by decide, by decide⟩

/-- C5 (amended): every data-fetch operation calls `login()` first (a login
failure preempts the GET and propagates) and then — when the tokens are
already present, so that login is a no-op — issues exactly one GET with the
account-scoped token's bearer header; the apartment list, yearly analysis
summary, invoice period list, invoice line details, sensor list, sensor
reading and sensor yearly cost URLs carry the millisecond-epoch
cache-busting `_` parameter read from the clock, while the house list URL
carries no timestamp parameter and reads no clock. -/
theorem c5_fetch_operations_amended (fuel : Nat) (env : Env) (s : ApiState)
    (w : Net) :
    (∀ body rs, truthy s.token = true → truthy s.auth_token = true →
      env.rsp w.k = ⟨200, body, .obj [("results", .arr rs)]⟩ →
      houseListF (fuel + 1) env s w =
        (.ok (.arr rs), s,
         ⟨w.k + 1, w.clk, w.trace ++
           [⟨"GET", housesUrl (pyStr s.id_gru) (pyStr s.id_kli),
             some ("Bearer " ++ pyStr s.token)⟩]⟩)) ∧
    (∀ houseId body rs, truthy s.token = true → truthy s.auth_token = true →
      env.rsp w.k = ⟨200, body, .obj [("results", .arr rs)]⟩ →
      apartmentListF (fuel + 1) env s w houseId =
        (.ok (.arr rs), s,
         ⟨w.k + 1, w.clk + 1, w.trace ++
           [⟨"GET", apartmentsUrl (pyStr houseId) (pyStr s.id_kli)
               (toString (env.nowMs w.clk)),
             some ("Bearer " ++ pyStr s.token)⟩]⟩)) ∧
    (∀ houseId body rs, truthy s.token = true → truthy s.auth_token = true →
      env.rsp w.k = ⟨200, body, .obj [("results", .arr rs)]⟩ →
      houseAnalysisSummaryF (fuel + 1) env s w houseId =
        (.ok (.arr rs), s,
         ⟨w.k + 1, w.clk + 1, w.trace ++
           [⟨"GET", analysisSummaryUrl (pyStr houseId) (pyStr s.id_kli)
               (toString env.year) (toString (env.nowMs w.clk)),
             some ("Bearer " ++ pyStr s.token)⟩]⟩)) ∧
    (∀ houseId aptId body rs, truthy s.token = true → truthy s.auth_token = true →
      env.rsp w.k = ⟨200, body, .obj [("results", .arr rs)]⟩ →
      houseInvoicesListF (fuel + 1) env s w houseId aptId =
        (.ok (.arr rs), s,
         ⟨w.k + 1, w.clk + 1, w.trace ++
           [⟨"GET", invoicesListUrl (pyStr houseId) (pyStr s.id_kli) (pyStr aptId)
               (toString (env.nowMs w.clk)),
             some ("Bearer " ++ pyStr s.token)⟩]⟩)) ∧
    (∀ aptId invId body rs, truthy s.token = true → truthy s.auth_token = true →
      env.rsp w.k = ⟨200, body, .obj [("results", .arr rs)]⟩ →
      invoiceDetailsF (fuel + 1) env s w aptId invId =
        (.ok (.arr rs), s,
         ⟨w.k + 1, w.clk + 1, w.trace ++
           [⟨"GET", monthlyRentalUrl (pyStr invId) (pyStr aptId) (pyStr s.id_kli)
               (toString (env.nowMs w.clk)),
             some ("Bearer " ++ pyStr s.token)⟩]⟩)) ∧
    (∀ houseId body rs, truthy s.token = true → truthy s.auth_token = true →
      env.rsp w.k = ⟨200, body, .obj [("results", .arr rs)]⟩ →
      houseSensorListF (fuel + 1) env s w houseId =
        (.ok (.arr rs), s,
         ⟨w.k + 1, w.clk + 1, w.trace ++
           [⟨"GET", sensorsListUrl (pyStr houseId) (pyStr s.id_gru)
               (toString (env.nowMs w.clk)),
             some ("Bearer " ++ pyStr s.token)⟩]⟩)) ∧
    (∀ aptId sensorId body rs, truthy s.token = true → truthy s.auth_token = true →
      env.rsp w.k = ⟨200, body, .obj [("results", .arr rs)]⟩ →
      houseSensorValueF (fuel + 1) env s w aptId sensorId =
        (.ok (.arr rs), s,
         ⟨w.k + 1, w.clk + 1, w.trace ++
           [⟨"GET", sensorValueUrl (pyStr aptId) (pyStr sensorId)
               (toString (env.nowMs w.clk)),
             some ("Bearer " ++ pyStr s.token)⟩]⟩)) ∧
    (∀ houseId sensorId body rs, truthy s.token = true → truthy s.auth_token = true →
      env.rsp w.k = ⟨200, body, .obj [("results", .arr rs)]⟩ →
      houseSensorCostF (fuel + 1) env s w houseId sensorId =
        (.ok (.arr rs), s,
         ⟨w.k + 1, w.clk + 1, w.trace ++
           [⟨"GET", monthlyMetersCostUrl (pyStr houseId) (pyStr s.id_kli)
               (pyStr sensorId) (toString (env.nowMs w.clk)),
             some ("Bearer " ++ pyStr s.token)⟩]⟩)) ∧
    (∀ e s2 w2, loginF (fuel + 1) env.rsp s w = (.error e, s2, w2) →
      houseListF (fuel + 1) env s w = (.error e, s2, w2) ∧
      (∀ hId, apartmentListF (fuel + 1) env s w hId = (.error e, s2, w2)) ∧
      (∀ hId, houseAnalysisSummaryF (fuel + 1) env s w hId = (.error e, s2, w2)) ∧
      (∀ hId aId, houseInvoicesListF (fuel + 1) env s w hId aId = (.error e, s2, w2)) ∧
      (∀ aId iId, invoiceDetailsF (fuel + 1) env s w aId iId = (.error e, s2, w2)) ∧
      (∀ hId, houseSensorListF (fuel + 1) env s w hId = (.error e, s2, w2)) ∧
      (∀ aId sId, houseSensorValueF (fuel + 1) env s w aId sId = (.error e, s2, w2)) ∧
      (∀ hId sId, houseSensorCostF (fuel + 1) env s w hId sId = (.error e, s2, w2))) := by
  have hlogin : ∀ (ht : truthy s.token = true) (ha : truthy s.auth_token = true),
      loginF (fuel + 1) env.rsp s w = (.ok true, s, w) := by
    intro ht ha
    simp only [loginF, clientStep.eq_2]
    simp [ht, ha]
  have hget : ∀ (ht : truthy s.token = true) url body rs,
      env.rsp w.k = ⟨200, body, .obj [("results", .arr rs)]⟩ →
      getF (fuel + 1) env.rsp s (tick w) url true =
        (.ok (.obj [("results", .arr rs)]), s,
         pushReq (tick w) ⟨"GET", url, some ("Bearer " ++ pyStr s.token)⟩) := by
    intro ht url body rs hr
    simp only [getF, clientStep.eq_2]
    simp [tick, hr, bearerAuth, ht]
  have hgetPlain : ∀ (ht : truthy s.token = true) url body rs,
      env.rsp w.k = ⟨200, body, .obj [("results", .arr rs)]⟩ →
      getF (fuel + 1) env.rsp s w url true =
        (.ok (.obj [("results", .arr rs)]), s,
         pushReq w ⟨"GET", url, some ("Bearer " ++ pyStr s.token)⟩) := by
    intro ht url body rs hr
    simp only [getF, clientStep.eq_2]
    simp [hr, bearerAuth, ht]
  have hres : ∀ rs, resultsOr (.obj [("results", .arr rs)]) = .ok (.arr rs) := by
    intro rs
    simp [resultsOr, fieldsLookup]
  refine ⟨?_, ?_, ?_, ?_, ?_, ?_, ?_, ?_, ?_⟩
  · intro body rs ht ha hr
    simp only [houseListF, hlogin ht ha, hgetPlain ht _ body rs hr, hres]
    rfl
  · intro houseId body rs ht ha hr
    simp only [apartmentListF, hlogin ht ha, hget ht _ body rs hr, hres]
    rfl
  · intro houseId body rs ht ha hr
    simp only [houseAnalysisSummaryF, hlogin ht ha, hget ht _ body rs hr, hres]
    rfl
  · intro houseId aptId body rs ht ha hr
    simp only [houseInvoicesListF, hlogin ht ha, hget ht _ body rs hr, hres]
    rfl
  · intro aptId invId body rs ht ha hr
    simp only [invoiceDetailsF, hlogin ht ha, hget ht _ body rs hr, hres]
    rfl
  · intro houseId body rs ht ha hr
    simp only [houseSensorListF, hlogin ht ha, hget ht _ body rs hr, hres]
    rfl
  · intro aptId sensorId body rs ht ha hr
    simp only [houseSensorValueF, hlogin ht ha, hget ht _ body rs hr, hres]
    rfl
  · intro houseId sensorId body rs ht ha hr
    simp only [houseSensorCostF, hlogin ht ha, hget ht _ body rs hr, hres]
    rfl
  · intro e s2 w2 hl
    refine ⟨?_, ?_, ?_, ?_, ?_, ?_, ?_, ?_⟩ <;>
      intros <;>
      simp only [houseListF, apartmentListF, houseAnalysisSummaryF,
        houseInvoicesListF, invoiceDetailsF, houseSensorListF,
        houseSensorValueF, houseSensorCostF, hl]

/-- Clock and 200 responses for the C5 witness. -/
def envW : Env := ⟨fun _ => ⟨200, "ok", .obj [("results", .arr [.str "R"])]⟩,
  fun _ => 1700000000000, 2024⟩

/-- C5 witness: each wrapper evaluated on a concrete environment, showing
the single GET, the account-token header, and the `_` timestamp on all URLs
except the house list's. -/
theorem c5_fetch_operations_amended_witness :
    houseListF 3 envW sTokens ⟨0, 0, []⟩ =
      (.ok (.arr [.str "R"]), sTokens,
       ⟨1, 0, [⟨"GET", housesUrl "3" "2", some "Bearer T"⟩]⟩) ∧
    apartmentListF 3 envW sTokens ⟨0, 0, []⟩ (.num 5) =
      (.ok (.arr [.str "R"]), sTokens,
       ⟨1, 1, [⟨"GET", apartmentsUrl "5" "2" "1700000000000", some "Bearer T"⟩]⟩) ∧
    houseAnalysisSummaryF 3 envW sTokens ⟨0, 0, []⟩ (.num 5) =
      (.ok (.arr [.str "R"]), sTokens,
       ⟨1, 1, [⟨"GET", analysisSummaryUrl "5" "2" "2024" "1700000000000",
               some "Bearer T"⟩]⟩) ∧
    houseInvoicesListF 3 envW sTokens ⟨0, 0, []⟩ (.num 5) (.num 1) =
      (.ok (.arr [.str "R"]), sTokens,
       ⟨1, 1, [⟨"GET", invoicesListUrl "5" "2" "1" "1700000000000",
               some "Bearer T"⟩]⟩) ∧
    invoiceDetailsF 3 envW sTokens ⟨0, 0, []⟩ (.num 1) (.num 9) =
      (.ok (.arr [.str "R"]), sTokens,
       ⟨1, 1, [⟨"GET", monthlyRentalUrl "9" "1" "2" "1700000000000",
               some "Bearer T"⟩]⟩) ∧
    houseSensorListF 3 envW sTokens ⟨0, 0, []⟩ (.num 5) =
      (.ok (.arr [.str "R"]), sTokens,
       ⟨1, 1, [⟨"GET", sensorsListUrl "5" "3" "1700000000000",
               some "Bearer T"⟩]⟩) ∧
    houseSensorValueF 3 envW sTokens ⟨0, 0, []⟩ (.num 1) (.num 10) =
      (.ok (.arr [.str "R"]), sTokens,
       ⟨1, 1, [⟨"GET", sensorValueUrl "1" "10" "1700000000000",
               some "Bearer T"⟩]⟩) ∧
    houseSensorCostF 3 envW sTokens ⟨0, 0, []⟩ (.num 5) (.num 10) =
      (.ok (.arr [.str "R"]), sTokens,
       ⟨1, 1, [⟨"GET", monthlyMetersCostUrl "5" "2" "10" "1700000000000",
               some "Bearer T"⟩]⟩) := by
  obtain ⟨h1, h2, h3, h4, h5, h6, h7, h8, -⟩ :=
    c5_fetch_operations_amended 2 envW sTokens ⟨0, 0, []⟩
  exact ⟨h1 "ok" [.str "R"] rfl rfl rfl,
         h2 (.num 5) "ok" [.str "R"] rfl rfl rfl,
         h3 (.num 5) "ok" [.str "R"] rfl rfl rfl,
         h4 (.num 5) (.num 1) "ok" [.str "R"] rfl rfl rfl,
         h5 (.num 1) (.num 9) "ok" [.str "R"] rfl rfl rfl,
         h6 (.num 5) "ok" [.str "R"] rfl rfl rfl,
         h7 (.num 1) (.num 10) "ok" [.str "R"] rfl rfl rfl,
         h8 (.num 5) (.num 10) "ok" [.str "R"] rfl rfl rfl⟩

/-- C4: login idempotence.  (i) When both tokens are already truthy,
`login()` returns True immediately with the state and the network world
(call counter, clock, request trace) unchanged: no network calls.  (ii) For
any credentials/responses under which a `login()` call succeeds, an
immediately following second `login()` call returns True and performs no
network calls (the trace and call counter stay exactly as the first call
left them). -/
theorem c4_login_idempotent (fuel fuelB : Nat) (rsp : Nat → Resp)
    (s : ApiState) (w : Net) :
    (truthy s.token = true → truthy s.auth_token = true →
      loginF (fuel + 1) rsp s w = (.ok true, s, w)) ∧
    (∀ b s' w', loginF fuel rsp s w = (.ok b, s', w') →
      loginF (fuelB + 1) rsp s' w' = (.ok true, s', w')) := by
  constructor
  · intro h1 h2
    simp only [loginF, clientStep.eq_2]
    simp [h1, h2]
  · intro b s' w' h
    have ht := (tokens_invariant fuel).1 rsp s w b s' w' h
    simp only [loginF, clientStep.eq_2]
    simp [ht.1, ht.2]

/-- Response stream for the C4 witness: a successful login sequence. -/
def rspLogin : Nat → Resp := fun k => rspRetry (k + 1)

/-- C4 witness: from a fresh client, the first `login()` performs the four
network calls of the login sequence; the second performs none and leaves
everything unchanged. -/
theorem c4_login_idempotent_witness :
    loginF 6 rspLogin (initState "u" "p") ⟨0, 0, []⟩ =
      (.ok true, ⟨"u", "p", .str "AT2", .str "T2", .num 1, .num 2, .str "N", .num 3⟩,
       ⟨4, 0, [⟨"POST", loginUrl, none⟩,
               ⟨"GET", accountsListUrl, some "Bearer AT2"⟩,
               ⟨"GET", accountDetailsUrl "7", some "Bearer AT2"⟩,
               ⟨"GET", groupsUrl "2", some "Bearer T2"⟩]⟩) ∧
    loginF 9 rspLogin
      ⟨"u", "p", .str "AT2", .str "T2", .num 1, .num 2, .str "N", .num 3⟩
      ⟨4, 0, [⟨"POST", loginUrl, none⟩,
              ⟨"GET", accountsListUrl, some "Bearer AT2"⟩,
              ⟨"GET", accountDetailsUrl "7", some "Bearer AT2"⟩,
              ⟨"GET", groupsUrl "2", some "Bearer T2"⟩]⟩ =
      (.ok true, ⟨"u", "p", .str "AT2", .str "T2", .num 1, .num 2, .str "N", .num 3⟩,
       ⟨4, 0, [⟨"POST", loginUrl, none⟩,
               ⟨"GET", accountsListUrl, some "Bearer AT2"⟩,
               ⟨"GET", accountDetailsUrl "7", some "Bearer AT2"⟩,
               ⟨"GET", groupsUrl "2", some "Bearer T2"⟩]⟩) := by
  constructor
  · rfl
  · exact (c4_login_idempotent 6 8 rspLogin (initState "u" "p") ⟨0, 0, []⟩).2 true
      ⟨"u", "p", .str "AT2", .str "T2", .num 1, .num 2, .str "N", .num 3⟩
      ⟨4, 0, [⟨"POST", loginUrl, none⟩,
              ⟨"GET", accountsListUrl, some "Bearer AT2"⟩,
              ⟨"GET", accountDetailsUrl "7", some "Bearer AT2"⟩,
              ⟨"GET", groupsUrl "2", some "Bearer T2"⟩]⟩ (by rfl)

/-- Reduction of Except bind on a success value. -/
theorem ebind_ok (a : α) (f : α → Except PyErr β) : (Except.ok a >>= f) = f a := rfl

/-- Reduction of Except bind on an error value. -/
theorem ebind_err (e : PyErr) (f : α → Except PyErr β) :
    ((Except.error e : Except PyErr α) >>= f) = .error e := rfl

/-- Reduction of pure into an Except constructor. -/
theorem epure (a : α) : (pure a : Except PyErr α) = .ok a := rfl

/-- C9 counterexample: the claim says any unit code other than "m3", "GJ"
and "" is passed through verbatim as the unit label, but the code strips the
string first: for the code " x " (which is none of the three) the resulting
unit label is "x", not " x ". -/
theorem c9_unit_not_verbatim :
    (" x " ≠ "m3" ∧ " x " ≠ "GJ" ∧ " x " ≠ "") ∧
    (applyUnitMapping none (some " x ")).2 = some "x" ∧
    (applyUnitMapping none (some " x ")).2 ≠ some " x " := by
  decide

/-- C9 (amended): the unit code is stripped of surrounding whitespace first;
a stripped code "m3" yields a water-volume measurement in cubic meters, "GJ"
an energy measurement in gigajoules, an empty or absent (or whitespace-only)
code yields no unit, and any other code is passed through stripped as the
unit label (with the previously set device class left unchanged outside the
"m3"/"GJ" branches). -/
theorem c9_unit_mapping_amended :
    (∀ dc u, pyStrip u = "m3" →
      applyUnitMapping dc (some u) = (some .water, some CUBIC_METERS)) ∧
    (∀ dc u, pyStrip u = "GJ" →
      applyUnitMapping dc (some u) = (some .energy, some GIGA_JOULE)) ∧
    (∀ dc, applyUnitMapping dc none = (dc, none)) ∧
    (∀ dc u, pyStrip u = "" → applyUnitMapping dc (some u) = (dc, none)) ∧
    (∀ dc u, pyStrip u ≠ "m3" → pyStrip u ≠ "GJ" → pyStrip u ≠ "" →
      applyUnitMapping dc (some u) = (dc, some (pyStrip u))) := by
  refine ⟨?_, ?_, ?_, ?_, ?_⟩
  · intro dc u h
    simp [applyUnitMapping, h]
  · intro dc u h
    simp [applyUnitMapping, h]
  · intro dc
    have h : pyStrip "" = "" := rfl
    simp [applyUnitMapping, h]
  · intro dc u h
    simp [applyUnitMapping, h]
  · intro dc u h1 h2 h3
    simp [applyUnitMapping, h1, h2, h3]

/-- C9 witness: the amended mapping evaluated at concrete codes. -/
theorem c9_unit_mapping_amended_witness :
    applyUnitMapping (some .monetary) (some " m3") = (some .water, some CUBIC_METERS) ∧
    applyUnitMapping none (some "kWh ") = (none, some (pyStrip "kWh ")) :=
  ⟨c9_unit_mapping_amended.1 (some .monetary) " m3" (by decide),
   c9_unit_mapping_amended.2.2.2.2 none "kWh " (by decide) (by decide) (by decide)⟩

/-- C1: evaluation of the three `native_value` projections at absent
snapshots and absent keys.  The claim (and spec) require null/unknown and
never an exception, but the code calls `.get` on the `None` produced by a
defaulted lookup: the meter projection raises AttributeError both when the
snapshot is absent and when the `(apartment, sensor)` key is absent, and the
invoice-entry and cost-summary projections raise whenever the snapshot is
present but the key is absent.  The last conjunct shows the present-key path
works, isolating the bug to the absent cases. -/
theorem c1_projection_lookup_raises :
    meterNativeValue none 1 10 = .error .attrError ∧
    meterNativeValue (some ⟨[], [], 5, "house", []⟩) 1 10 = .error .attrError ∧
    invoiceNativeValue (some ⟨[], [], 5, "house", []⟩) (.str "Woda") = .error .attrError ∧
    summaryNativeValue (some ⟨[], [], 5, "house", []⟩) (.num 10) = .error .attrError ∧
    invoiceNativeValue none (.str "Woda") = .ok .null ∧
    summaryNativeValue none (.num 10) = .ok .null ∧
    meterNativeValue
      (some ⟨[], [((1, 10), ⟨.str "12.5", .str "A", .str "2024-01-01"⟩)], 5, "house", []⟩)
      1 10 = .ok (.str "12.5") :=
  ⟨rfl, rfl, rfl, rfl, rfl, rfl, rfl⟩

/-- C2: a refresh cycle is atomic.  Exceptions raised outside step 5's inner
try (shown for the apartment-list fetch, the sensor-list fetch, and in
general for any error escaping the cycle body) turn the whole cycle into the
designated `UpdateFailed` condition, and a failed cycle publishes nothing:
consumers keep the previous snapshot (or none), while a successful cycle
replaces it wholesale. -/
theorem c2_failed_refresh_atomicity (api : ApiIface) (houseId : Int)
    (houseName : String) (prev : Option Snapshot) :
    (∀ e, api.apartmentList houseId = .error e →
      asyncUpdateData api houseId houseName = .error (.updateFailed e)) ∧
    (∀ e xs, api.apartmentList houseId = .ok xs →
      api.houseSensorList houseId = .error e →
      asyncUpdateData api houseId houseName = .error (.updateFailed e)) ∧
    (∀ e, updateBody api houseId houseName = .error e →
      asyncUpdateData api houseId houseName = .error (.updateFailed e)) ∧
    (∀ e, asyncUpdateData api houseId houseName = .error e →
      publish prev (asyncUpdateData api houseId houseName) = prev) ∧
    (∀ snap, asyncUpdateData api houseId houseName = .ok snap →
      publish prev (asyncUpdateData api houseId houseName) = some snap) := by
  refine ⟨?_, ?_, ?_, ?_, ?_⟩
  · intro e h
    rw [asyncUpdateData, updateBody, h]
    rfl
  · intro e xs h1 h2
    rw [asyncUpdateData, updateBody, h1, h2]
    rfl
  · intro e h
    simp [asyncUpdateData, h]
  · intro e h
    simp [publish, h]
  · intro snap h
    simp [publish, h]

/-- The API behaviour of the concrete scenario in C6: one apartment with
IdLok 1, one sensor with id_el_op 10 (unit "m3", name "Cold water"), one
reading with stan "12.5". -/
def apiScenario : ApiIface where
  apartmentList := fun _ => .ok [.obj [("IdLok", .num 1)]]
  houseSensorList := fun _ =>
    .ok [.obj [("id_el_op", .num 10), ("jm", .str "m3"), ("nazwa", .str "Cold water")]]
  houseSensorValue := fun _ _ =>
    .ok [.obj [("stan", .str "12.5"), ("typ", .str "A"), ("data", .str "2024-01-01")]]
  houseInvoicesList := fun _ _ => .ok []
  invoiceDetails := fun _ _ => .ok []
  houseAnalysisSummary := fun _ => .ok []
  houseSensorCost := fun _ _ => .ok []

/-- Like `apiScenario` but with a first sensor entry that has no
`id_el_op` identifier. -/
def apiSkip : ApiIface where
  apartmentList := fun _ => .ok [.obj [("IdLok", .num 1)]]
  houseSensorList := fun _ =>
    .ok [.obj [("nazwa", .str "Broken")],
         .obj [("id_el_op", .num 10), ("jm", .str "m3"), ("nazwa", .str "Cold water")]]
  houseSensorValue := fun _ _ =>
    .ok [.obj [("stan", .str "12.5"), ("typ", .str "A"), ("data", .str "2024-01-01")]]
  houseInvoicesList := fun _ _ => .ok []
  invoiceDetails := fun _ _ => .ok []
  houseAnalysisSummary := fun _ => .ok []
  houseSensorCost := fun _ _ => .ok []

/-- C6: meter readings per (apartment, sensor) pair.  (i) With a non-empty
reading list, the first element's stan/typ/data go into the meters map under
`(int(IdLok), int(id_el_op))`.  (ii) With an empty reading list, an entry
with null value/type/date is stored.  (iii) A sensor entry whose identifier
is missing is skipped and the remaining sensors are still processed.
(iv) The concrete scenario of the claim stores value "12.5" under (1, 10). -/
theorem c6_meter_readings (api : ApiIface) (houseId a sid : Int)
    (houseName : String) :
    (∀ sobj v0 vrest sv tv dv,
      api.apartmentList houseId = .ok [.obj [("IdLok", .num a)]] →
      api.houseSensorList houseId = .ok [sobj] →
      pyGet sobj "id_el_op" = .ok (.num sid) →
      api.houseSensorValue (.num a) (.num sid) = .ok (v0 :: vrest) →
      pyGet v0 "stan" = .ok sv →
      pyGet v0 "typ" = .ok tv →
      pyGet v0 "data" = .ok dv →
      api.houseInvoicesList houseId (.num a) = .ok [] →
      asyncUpdateData api houseId houseName =
        .ok ⟨step5 api houseId, [((a, sid), ⟨sv, tv, dv⟩)], houseId, houseName, []⟩) ∧
    (∀ sobj,
      api.apartmentList houseId = .ok [.obj [("IdLok", .num a)]] →
      api.houseSensorList houseId = .ok [sobj] →
      pyGet sobj "id_el_op" = .ok (.num sid) →
      api.houseSensorValue (.num a) (.num sid) = .ok [] →
      api.houseInvoicesList houseId (.num a) = .ok [] →
      asyncUpdateData api houseId houseName =
        .ok ⟨step5 api houseId, [((a, sid), ⟨.null, .null, .null⟩)], houseId, houseName, []⟩) ∧
    (∀ sbad sobj v0 vrest sv tv dv,
      api.apartmentList houseId = .ok [.obj [("IdLok", .num a)]] →
      api.houseSensorList houseId = .ok [sbad, sobj] →
      pyGet sbad "id_el_op" = .ok .null →
      pyGet sobj "id_el_op" = .ok (.num sid) →
      api.houseSensorValue (.num a) (.num sid) = .ok (v0 :: vrest) →
      pyGet v0 "stan" = .ok sv →
      pyGet v0 "typ" = .ok tv →
      pyGet v0 "data" = .ok dv →
      api.houseInvoicesList houseId (.num a) = .ok [] →
      asyncUpdateData api houseId houseName =
        .ok ⟨step5 api houseId, [((a, sid), ⟨sv, tv, dv⟩)], houseId, houseName, []⟩) ∧
    (asyncUpdateData apiScenario 5 "house" =
      .ok ⟨[], [((1, 10), ⟨.str "12.5", .str "A", .str "2024-01-01"⟩)], 5, "house", []⟩ ∧
     (alistGet [((1, 10), (⟨.str "12.5", .str "A", .str "2024-01-01"⟩ : MeterEntry))]
        (1, 10)).map MeterEntry.value = some (.str "12.5")) := by
  have hNullT : JVal.isNull .null = true := rfl
  have hNull : JVal.isNull (.num a) = false := rfl
  have hNull2 : JVal.isNull (.num sid) = false := rfl
  have hInt : pyInt (JVal.num a) = .ok a := rfl
  have hInt2 : pyInt (JVal.num sid) = .ok sid := rfl
  have hApt : pyGet (.obj [("IdLok", .num a)]) "IdLok" = .ok (.num a) := rfl
  refine ⟨?_, ?_, ?_, rfl, rfl⟩
  · intro sobj v0 vrest sv tv dv h1 h2 h3 h4 h5 h6 h7 h8
    simp only [asyncUpdateData, updateBody, apartmentLoop, sensorLoop, h1, h2, h3, h4,
      h5, h6, h7, h8, hApt, hNull, hNull2, hInt, hInt2, ebind_ok, ebind_err, epure]
    simp [alistSet, ebind_ok, epure]
  · intro sobj h1 h2 h3 h4 h5
    simp only [asyncUpdateData, updateBody, apartmentLoop, sensorLoop, h1, h2, h3, h4,
      h5, hApt, hNull, hNull2, hInt, hInt2, ebind_ok, ebind_err, epure]
    simp [alistSet, ebind_ok, epure]
  · intro sbad sobj v0 vrest sv tv dv h1 h2 h3 h3' h4 h5 h6 h7 h8
    simp only [asyncUpdateData, updateBody, apartmentLoop, sensorLoop, h1, h2, h3, h3',
      h4, h5, h6, h7, h8, hApt, hNullT, hNull, hNull2, hInt, hInt2, ebind_ok,
      ebind_err, epure]
    simp [alistSet, ebind_ok, epure]

/-- C6 witness: the generic parts applied to the concrete scenario client
and to the skip-scenario client. -/
theorem c6_meter_readings_witness :
    asyncUpdateData apiScenario 5 "house" =
      .ok ⟨step5 apiScenario 5,
        [((1, 10), ⟨.str "12.5", .str "A", .str "2024-01-01"⟩)], 5, "house", []⟩ ∧
    asyncUpdateData apiSkip 5 "house" =
      .ok ⟨step5 apiSkip 5,
        [((1, 10), ⟨.str "12.5", .str "A", .str "2024-01-01"⟩)], 5, "house", []⟩ :=
  ⟨(c6_meter_readings apiScenario 5 1 10 "house").1
      (.obj [("id_el_op", .num 10), ("jm", .str "m3"), ("nazwa", .str "Cold water")])
      (.obj [("stan", .str "12.5"), ("typ", .str "A"), ("data", .str "2024-01-01")])
      [] (.str "12.5") (.str "A") (.str "2024-01-01")
      rfl rfl rfl rfl rfl rfl rfl rfl,
   (c6_meter_readings apiSkip 5 1 10 "house").2.2.1
      (.obj [("nazwa", .str "Broken")])
      (.obj [("id_el_op", .num 10), ("jm", .str "m3"), ("nazwa", .str "Cold water")])
      (.obj [("stan", .str "12.5"), ("typ", .str "A"), ("data", .str "2024-01-01")])
      [] (.str "12.5") (.str "A") (.str "2024-01-01")
      rfl rfl rfl rfl rfl rfl rfl rfl rfl⟩

/-- A most-recent invoice period used by the collision scenario. -/
def invC : JVal :=
  .obj [("IdNal", .num 9), ("DataOd", .str "2024-01-01"),
        ("DataDo", .str "2024-01-31"), ("Stan", .bool true)]

/-- Two apartments whose last invoices both contain a line item named
"Czynsz" (with different amounts), for the C7 name-collision conjunct. -/
def apiCollide : ApiIface where
  apartmentList := fun _ => .ok [.obj [("IdLok", .num 1)], .obj [("IdLok", .num 2)]]
  houseSensorList := fun _ => .ok []
  houseSensorValue := fun _ _ => .ok []
  houseInvoicesList := fun _ _ => .ok [invC]
  invoiceDetails := fun apt _ =>
    if apt == .num 1 then .ok [.obj [("Nazwa", .str "Czynsz"), ("Nalicz", .num 100)]]
    else .ok [.obj [("Nazwa", .str "Czynsz"), ("Nalicz", .num 200)]]
  houseAnalysisSummary := fun _ => .ok []
  houseSensorCost := fun _ _ => .ok []

/-- C7: last-invoice handling per apartment.  (i) An empty invoice period
list yields no last-invoice entries and no error.  (ii) When the most recent
period's IdNal is truthy, the invoice's line entries are fetched, each is
annotated (via `annotateEntry`, i.e. with the period's DataOd/DataDo start
and end dates, its Stan paid flag and the apartment id) and indexed by its
Nazwa name.  (iii) A falsy IdNal yields no entries.  (iv) On a name
collision across apartments the later apartment's entry overwrites the
earlier one: the concrete two-apartment client ends with only the second
apartment's "Czynsz" entry. -/
theorem c7_last_invoice_indexing (api : ApiIface) (houseId a : Int)
    (houseName : String) :
    (api.apartmentList houseId = .ok [.obj [("IdLok", .num a)]] →
      api.houseSensorList houseId = .ok [] →
      api.houseInvoicesList houseId (.num a) = .ok [] →
      asyncUpdateData api houseId houseName =
        .ok ⟨step5 api houseId, [], houseId, houseName, []⟩) ∧
    (∀ inv0 irest idn e e' k,
      api.apartmentList houseId = .ok [.obj [("IdLok", .num a)]] →
      api.houseSensorList houseId = .ok [] →
      api.houseInvoicesList houseId (.num a) = .ok (inv0 :: irest) →
      pyGet inv0 "IdNal" = .ok idn →
      truthy idn = true →
      api.invoiceDetails (.num a) idn = .ok [e] →
      annotateEntry inv0 (.num a) e = .ok e' →
      pyGet e' "Nazwa" = .ok k →
      asyncUpdateData api houseId houseName =
        .ok ⟨step5 api houseId, [], houseId, houseName, [(k, e')]⟩) ∧
    (∀ inv0 irest idn,
      api.apartmentList houseId = .ok [.obj [("IdLok", .num a)]] →
      api.houseSensorList houseId = .ok [] →
      api.houseInvoicesList houseId (.num a) = .ok (inv0 :: irest) →
      pyGet inv0 "IdNal" = .ok idn →
      truthy idn = false →
      asyncUpdateData api houseId houseName =
        .ok ⟨step5 api houseId, [], houseId, houseName, []⟩) ∧
    (asyncUpdateData apiCollide 5 "house" =
      .ok ⟨[], [], 5, "house",
        [(.str "Czynsz",
          .obj [("Nazwa", .str "Czynsz"), ("Nalicz", .num 200),
                ("start_date", .str "2024-01-01"), ("end_date", .str "2024-01-31"),
                ("paid", .bool true), ("apartment_id", .num 2)])]⟩) := by
  have hNull : JVal.isNull (.num a) = false := rfl
  have hApt : pyGet (.obj [("IdLok", .num a)]) "IdLok" = .ok (.num a) := rfl
  refine ⟨?_, ?_, ?_, rfl⟩
  · intro h1 h2 h3
    simp only [asyncUpdateData, updateBody, apartmentLoop, sensorLoop, h1, h2, h3,
      hApt, hNull, ebind_ok, ebind_err, epure]
    rfl
  · intro inv0 irest idn e e' k h1 h2 h3 h4 h5 h6 h7 h8
    simp only [asyncUpdateData, updateBody, apartmentLoop, sensorLoop, entriesLoop,
      h1, h2, h3, h4, h5, h6, h7, h8, hApt, hNull, ebind_ok, ebind_err, epure]
    simp [alistSet, ebind_ok, epure, entriesLoop]
  · intro inv0 irest idn h1 h2 h3 h4 h5
    simp only [asyncUpdateData, updateBody, apartmentLoop, sensorLoop, h1, h2, h3,
      h4, h5, hApt, hNull, ebind_ok, ebind_err, epure]
    rfl

/-- A single apartment with one truthy invoice period and one named line
entry, for the C7 witness. -/
def apiInvoice : ApiIface where
  apartmentList := fun _ => .ok [.obj [("IdLok", .num 1)]]
  houseSensorList := fun _ => .ok []
  houseSensorValue := fun _ _ => .ok []
  houseInvoicesList := fun _ _ => .ok [invC]
  invoiceDetails := fun _ _ => .ok [.obj [("Nazwa", .str "Czynsz"), ("Nalicz", .num 100)]]
  houseAnalysisSummary := fun _ => .ok []
  houseSensorCost := fun _ _ => .ok []

/-- C7 witness: the annotation-and-indexing conjunct applied to a concrete
single-apartment client. -/
theorem c7_last_invoice_indexing_witness :
    asyncUpdateData apiInvoice 5 "house" =
      .ok ⟨step5 apiInvoice 5, [], 5, "house",
        [(.str "Czynsz",
          .obj [("Nazwa", .str "Czynsz"), ("Nalicz", .num 100),
                ("start_date", .str "2024-01-01"), ("end_date", .str "2024-01-31"),
                ("paid", .bool true), ("apartment_id", .num 1)])]⟩ :=
  (c7_last_invoice_indexing apiInvoice 5 1 "house").2.1 invC [] (.num 9)
    (.obj [("Nazwa", .str "Czynsz"), ("Nalicz", .num 100)])
    (.obj [("Nazwa", .str "Czynsz"), ("Nalicz", .num 100),
           ("start_date", .str "2024-01-01"), ("end_date", .str "2024-01-31"),
           ("paid", .bool true), ("apartment_id", .num 1)])
    (.str "Czynsz") rfl rfl rfl rfl rfl rfl rfl rfl

/-- C8: the yearly-summary step.  (i) If the yearly-summary fetch raises,
the cycle still completes successfully with an empty cost-summary map.
(ii) For a row with a sensor id whose cost fetch returns a non-empty list,
the `cost`/`amount` fields are merged in and the row is indexed by its
sensor id.  (iii) With an empty cost list the row is stored unmerged.
(iv) A failure in the middle of the step (here: the second row's cost fetch
raising) is caught: the cycle completes successfully with the partial map
built so far. -/
theorem c8_summary_step_resilience (api : ApiIface) (houseId : Int)
    (houseName : String) :
    (∀ e, api.apartmentList houseId = .ok [] →
      api.houseSensorList houseId = .ok [] →
      api.houseAnalysisSummary houseId = .error e →
      asyncUpdateData api houseId houseName = .ok ⟨[], [], houseId, houseName, []⟩) ∧
    (∀ inv sid c0 crest cst amt inv1 inv2 k,
      api.apartmentList houseId = .ok [] →
      api.houseSensorList houseId = .ok [] →
      api.houseAnalysisSummary houseId = .ok [inv] →
      pyIndex inv "id_el_op" = .ok sid →
      api.houseSensorCost houseId sid = .ok (c0 :: crest) →
      pyIndex c0 "zuzycieFaktyczne" = .ok cst →
      objSet inv "cost" cst = .ok inv1 →
      pyIndex c0 "zuzycieFaktyczneJM" = .ok amt →
      objSet inv1 "amount" amt = .ok inv2 →
      pyIndex inv2 "id_el_op" = .ok k →
      asyncUpdateData api houseId houseName =
        .ok ⟨[(k, inv2)], [], houseId, houseName, []⟩) ∧
    (∀ inv sid,
      api.apartmentList houseId = .ok [] →
      api.houseSensorList houseId = .ok [] →
      api.houseAnalysisSummary houseId = .ok [inv] →
      pyIndex inv "id_el_op" = .ok sid →
      api.houseSensorCost houseId sid = .ok [] →
      asyncUpdateData api houseId houseName =
        .ok ⟨[(sid, inv)], [], houseId, houseName, []⟩) ∧
    (∀ inv sid invB sidB e,
      api.apartmentList houseId = .ok [] →
      api.houseSensorList houseId = .ok [] →
      api.houseAnalysisSummary houseId = .ok [inv, invB] →
      pyIndex inv "id_el_op" = .ok sid →
      api.houseSensorCost houseId sid = .ok [] →
      pyIndex invB "id_el_op" = .ok sidB →
      api.houseSensorCost houseId sidB = .error e →
      asyncUpdateData api houseId houseName =
        .ok ⟨[(sid, inv)], [], houseId, houseName, []⟩) := by
  refine ⟨?_, ?_, ?_, ?_⟩
  · intro e h1 h2 h3
    simp only [asyncUpdateData, updateBody, apartmentLoop, step5, h1, h2, h3,
      ebind_ok, ebind_err, epure]
  · intro inv sid c0 crest cst amt inv1 inv2 k h1 h2 h3 h4 h5 h6 h7 h8 h9 h10
    simp only [asyncUpdateData, updateBody, apartmentLoop, step5, summaryLoop,
      summaryRow, h1, h2, h3, h4, h5, h6, h7, h8, h9, h10, ebind_ok, ebind_err, epure]
    simp [alistSet, summaryLoop, ebind_ok, epure]
  · intro inv sid h1 h2 h3 h4 h5
    simp only [asyncUpdateData, updateBody, apartmentLoop, step5, summaryLoop,
      summaryRow, h1, h2, h3, h4, h5, ebind_ok, ebind_err, epure]
    simp [alistSet, summaryLoop, ebind_ok, epure]
  · intro inv sid invB sidB e h1 h2 h3 h4 h5 h6 h7
    simp only [asyncUpdateData, updateBody, apartmentLoop, step5, summaryLoop,
      summaryRow, h1, h2, h3, h4, h5, h6, h7, ebind_ok, ebind_err, epure]
    simp [alistSet, summaryLoop, summaryRow, h4, h5, h6, h7, ebind_ok, epure]

/-- One summary row with a mergeable cost, for the C8 witness. -/
def apiSummary : ApiIface where
  apartmentList := fun _ => .ok []
  houseSensorList := fun _ => .ok []
  houseSensorValue := fun _ _ => .ok []
  houseInvoicesList := fun _ _ => .ok []
  invoiceDetails := fun _ _ => .ok []
  houseAnalysisSummary := fun _ =>
    .ok [.obj [("id_el_op", .num 10), ("Nazwa", .str "Woda")]]
  houseSensorCost := fun _ _ =>
    .ok [.obj [("zuzycieFaktyczne", .num 42), ("zuzycieFaktyczneJM", .str "m3")]]

/-- A client whose yearly-summary fetch raises, for the C8 witness. -/
def apiSummaryErr : ApiIface where
  apartmentList := fun _ => .ok []
  houseSensorList := fun _ => .ok []
  houseSensorValue := fun _ _ => .ok []
  houseInvoicesList := fun _ _ => .ok []
  invoiceDetails := fun _ _ => .ok []
  houseAnalysisSummary := fun _ => .error (.httpError "GET" "u" 500 "boom")
  houseSensorCost := fun _ _ => .ok []

/-- C8 witness: the merge conjunct and the raising-summary conjunct applied
to concrete clients. -/
theorem c8_summary_step_resilience_witness :
    asyncUpdateData apiSummary 5 "house" =
      .ok ⟨[(.num 10,
            .obj [("id_el_op", .num 10), ("Nazwa", .str "Woda"),
                  ("cost", .num 42), ("amount", .str "m3")])], [], 5, "house", []⟩ ∧
    asyncUpdateData apiSummaryErr 5 "house" = .ok ⟨[], [], 5, "house", []⟩ :=
  ⟨(c8_summary_step_resilience apiSummary 5 "house").2.1
      (.obj [("id_el_op", .num 10), ("Nazwa", .str "Woda")]) (.num 10)
      (.obj [("zuzycieFaktyczne", .num 42), ("zuzycieFaktyczneJM", .str "m3")]) []
      (.num 42) (.str "m3")
      (.obj [("id_el_op", .num 10), ("Nazwa", .str "Woda"), ("cost", .num 42)])
      (.obj [("id_el_op", .num 10), ("Nazwa", .str "Woda"),
             ("cost", .num 42), ("amount", .str "m3")])
      (.num 10) rfl rfl rfl rfl rfl rfl rfl rfl rfl rfl,
   (c8_summary_step_resilience apiSummaryErr 5 "house").1
      (.httpError "GET" "u" 500 "boom") rfl rfl rfl⟩

/-- Setting one key leaves lookups of any other key unchanged. -/
theorem fieldsLookup_fieldsSet_ne (fs : List (String × JVal)) (k k' : String)
    (v : JVal) (h : k' ≠ k) :
    fieldsLookup (fieldsSet fs k v) k' = fieldsLookup fs k' := by
  induction fs with
  | nil => simp [fieldsSet, fieldsLookup, Ne.symm h]
  | cons kv rest ih =>
    obtain ⟨k0, v0⟩ := kv
    by_cases hk : k0 = k
    · subst hk
      simp [fieldsSet, fieldsLookup, h, Ne.symm h]
    · simp [fieldsSet, fieldsLookup, hk, ih]

/-- C10: invoice line entries lacking the "Nazwa" field are not skipped:
each is still annotated with the period dates, paid flag and apartment id,
and stored in the last-invoice map under the None key, with a later nameless
entry overwriting an earlier one, so exactly one nameless entry survives the
refresh. -/
theorem c10_nameless_invoice_entry (api : ApiIface) (houseId a : Int)
    (houseName : String) (ifs fs1 fs2 : List (String × JVal)) (idn : JVal)
    (h1 : api.apartmentList houseId = .ok [.obj [("IdLok", .num a)]])
    (h2 : api.houseSensorList houseId = .ok [])
    (h3 : api.houseInvoicesList houseId (.num a) = .ok [.obj ifs])
    (h4 : fieldsLookup ifs "IdNal" = some idn)
    (h5 : truthy idn = true)
    (h6 : api.invoiceDetails (.num a) idn = .ok [.obj fs1, .obj fs2])
    (hf1 : fieldsLookup fs1 "Nazwa" = none)
    (hf2 : fieldsLookup fs2 "Nazwa" = none) :
    ∃ e1 e2,
      annotateEntry (.obj ifs) (.num a) (.obj fs1) = .ok e1 ∧
      annotateEntry (.obj ifs) (.num a) (.obj fs2) = .ok e2 ∧
      asyncUpdateData api houseId houseName =
        .ok ⟨step5 api houseId, [], houseId, houseName, [(.null, e2)]⟩ := by
  have hNull : JVal.isNull (.num a) = false := rfl
  have hApt : pyGet (.obj [("IdLok", .num a)]) "IdLok" = .ok (.num a) := rfl
  have hIdn : pyGet (.obj ifs) "IdNal" = .ok idn := by simp [pyGet, h4]
  refine ⟨_, _, rfl, rfl, ?_⟩
  have hN1 : pyGet (JVal.obj (fieldsSet (fieldsSet (fieldsSet (fieldsSet fs1
      "start_date" ((fieldsLookup ifs "DataOd").getD .null)) "end_date"
      ((fieldsLookup ifs "DataDo").getD .null)) "paid"
      ((fieldsLookup ifs "Stan").getD .null)) "apartment_id" (.num a))) "Nazwa" =
      .ok .null := by
    simp [pyGet, fieldsLookup_fieldsSet_ne, hf1]
  have hN2 : pyGet (JVal.obj (fieldsSet (fieldsSet (fieldsSet (fieldsSet fs2
      "start_date" ((fieldsLookup ifs "DataOd").getD .null)) "end_date"
      ((fieldsLookup ifs "DataDo").getD .null)) "paid"
      ((fieldsLookup ifs "Stan").getD .null)) "apartment_id" (.num a))) "Nazwa" =
      .ok .null := by
    simp [pyGet, fieldsLookup_fieldsSet_ne, hf2]
  have hbeq : (JVal.null == JVal.null) = true := rfl
  have hA1 : annotateEntry (.obj ifs) (.num a) (.obj fs1) =
      .ok (JVal.obj (fieldsSet (fieldsSet (fieldsSet (fieldsSet fs1
        "start_date" ((fieldsLookup ifs "DataOd").getD .null)) "end_date"
        ((fieldsLookup ifs "DataDo").getD .null)) "paid"
        ((fieldsLookup ifs "Stan").getD .null)) "apartment_id" (.num a))) := rfl
  have hA2 : annotateEntry (.obj ifs) (.num a) (.obj fs2) =
      .ok (JVal.obj (fieldsSet (fieldsSet (fieldsSet (fieldsSet fs2
        "start_date" ((fieldsLookup ifs "DataOd").getD .null)) "end_date"
        ((fieldsLookup ifs "DataDo").getD .null)) "paid"
        ((fieldsLookup ifs "Stan").getD .null)) "apartment_id" (.num a))) := rfl
  simp only [asyncUpdateData, updateBody, apartmentLoop, sensorLoop, entriesLoop,
    h1, h2, h3, hIdn, h5, h6, hApt, hNull, hA1, hA2, hN1, hN2,
    ebind_ok, ebind_err, epure]
  simp [alistSet, hbeq, ebind_ok, epure]

/-- One apartment whose last invoice has two line entries, both lacking the
"Nazwa" field, for the C10 witness. -/
def apiNameless : ApiIface where
  apartmentList := fun _ => .ok [.obj [("IdLok", .num 1)]]
  houseSensorList := fun _ => .ok []
  houseSensorValue := fun _ _ => .ok []
  houseInvoicesList := fun _ _ => .ok [invC]
  invoiceDetails := fun _ _ => .ok [.obj [("Nalicz", .num 1)], .obj [("Nalicz", .num 2)]]
  houseAnalysisSummary := fun _ => .ok []
  houseSensorCost := fun _ _ => .ok []

/-- C10 witness: with two nameless entries, only the second survives, under
the None key and fully annotated. -/
theorem c10_nameless_invoice_entry_witness :
    asyncUpdateData apiNameless 5 "house" =
      .ok ⟨step5 apiNameless 5, [], 5, "house",
        [(.null,
          .obj [("Nalicz", .num 2), ("start_date", .str "2024-01-01"),
                ("end_date", .str "2024-01-31"), ("paid", .bool true),
                ("apartment_id", .num 1)])]⟩ := by
  obtain ⟨e1, e2, hA1, hA2, h⟩ :=
    c10_nameless_invoice_entry apiNameless 5 1 "house"
      [("IdNal", .num 9), ("DataOd", .str "2024-01-01"),
       ("DataDo", .str "2024-01-31"), ("Stan", .bool true)]
      [("Nalicz", .num 1)] [("Nalicz", .num 2)] (.num 9)
      rfl rfl rfl rfl rfl rfl rfl rfl
  have hA2' : annotateEntry
      (.obj [("IdNal", .num 9), ("DataOd", .str "2024-01-01"),
             ("DataDo", .str "2024-01-31"), ("Stan", .bool true)])
      (.num 1) (.obj [("Nalicz", .num 2)]) =
      .ok (.obj [("Nalicz", .num 2), ("start_date", .str "2024-01-01"),
                 ("end_date", .str "2024-01-31"), ("paid", .bool true),
                 ("apartment_id", .num 1)]) := rfl
  have he : e2 = .obj [("Nalicz", .num 2), ("start_date", .str "2024-01-01"),
      ("end_date", .str "2024-01-31"), ("paid", .bool true),
      ("apartment_id", .num 1)] := by
    have := hA2.symm.trans hA2'
    exact Except.ok.inj this
  subst he
  exact h

/-- A client whose apartment-list fetch raises, for the C2 witness. -/
def apiFailApts : ApiIface where
  apartmentList := fun _ => .error .typeError
  houseSensorList := fun _ => .ok []
  houseSensorValue := fun _ _ => .ok []
  houseInvoicesList := fun _ _ => .ok []
  invoiceDetails := fun _ _ => .ok []
  houseAnalysisSummary := fun _ => .ok []
  houseSensorCost := fun _ _ => .ok []

/-- C2 witness: a concrete failing cycle raises `UpdateFailed` and leaves
the previously published snapshot in place. -/
theorem c2_failed_refresh_atomicity_witness :
    asyncUpdateData apiFailApts 5 "house" = .error (.updateFailed .typeError) ∧
    publish (some ⟨[], [], 4, "old", []⟩) (asyncUpdateData apiFailApts 5 "house") =
      some ⟨[], [], 4, "old", []⟩ := by
  have H := c2_failed_refresh_atomicity apiFailApts 5 "house" (some ⟨[], [], 4, "old", []⟩)
  exact ⟨H.1 .typeError rfl, H.2.2.2.1 (.updateFailed .typeError) (H.1 .typeError rfl)⟩

end Ekartoteka
